import Mathlib

/-!
Shallow embedding of `src/cordcutter/__init__.py` (the Cordcutter circuit
breaker for discord.py application commands).

Commands are identified by natural numbers.  Python exceptions do not roll
back state, so every state-mutating operation returns the mutated world
together with an optional exception (`World × Option PyErr`): on an
exception the returned world contains exactly the mutations performed
before the raise.  The `errors` defaultdict is modelled pointwise as a
`Cmd → Option Nat` map (absent entry = `none`); `threshold` is `Int` as in
the Python source.  The per-command handler slot `command._callback` is an
external resource the breaker reads and writes; it lives in `World`.
-/

namespace Cordcutter

abbrev Cmd := Nat

/-- Python exceptions that the source can raise on the modelled paths. -/
inductive PyErr where
  | attributeError
  | typeError
  | indexError
deriving DecidableEq

/-- A Python callable value; `isCoroutineFn` models `inspect.iscoroutinefunction`. -/
structure CB where
  id : Nat
  isCoroutineFn : Bool
deriving DecidableEq

/-- Python function objects are always truthy. -/
def cbTruthy (_ : CB) : Bool := true

/-- The `trip_callback` property setter.  Source: early-returns when the
argument is `None` (leaving the backing field untouched), raises
`TypeError` when the argument is not a coroutine function, and stores the
argument otherwise.  The first component is the backing field after the
call; the second is the raised exception, if any. -/
def trip_callback_setter (field : Option CB) (callback : Option CB) :
    Option CB × Option PyErr :=
  match callback with
  | none => (field, none)
  | some cb =>
      if !cb.isCoroutineFn then (field, some .typeError)
      else (some cb, none)

/-- The `trip_callback` property getter: reads `self._trip_callback`, which
raises `AttributeError` when the backing field was never assigned. -/
def trip_callback_get (field : Option CB) : Except PyErr CB :=
  match field with
  | none => .error .attributeError
  | some cb => .ok cb

/-- Argument accepted by the `reset_after` setter: `None`, an `int`
(minutes), or a `timedelta` (modelled by its total seconds). -/
inductive ResetAfterArg where
  | noneArg
  | minutes (m : Nat)
  | delta (secs : Nat)
deriving DecidableEq

/-- The `reset_after` property setter, normalising to a duration in
seconds: `None` becomes one minute, an `int` is minutes, a `timedelta` is
kept. -/
def reset_after_setter : ResetAfterArg → Nat
  | .noneArg => 60
  | .minutes m => 60 * m
  | .delta s => s

/-- Warnings emitted through `logger.warning` on the modelled paths. -/
inductive LogMsg where
  | trippedWarning (c : Cmd)
  | noTripCallbackWarning
  | resetWarning (c : Cmd)
deriving DecidableEq

/-- A value that can sit in a command's `_callback` slot: the command's
originally configured handler, or the wrapper installed by
`__wrap_trip_callback` (which captures the handler it replaced and the
`binding` read off the command at trip time). -/
inductive Handler where
  | original (c : Cmd)
  | wrapped (orig : Handler) (binding : Option Nat)
deriving DecidableEq

/-- The breaker instance's own mutable fields. -/
structure Breaker where
  threshold : Int
  reset_after : Nat
  trip_cb : Option CB
  errors : Cmd → Option Nat
  tripped_at : Option Nat
  origCmdErr : Bool

/-- The breaker together with the external state it touches: each
command's live `_callback` slot, each command's `binding` attribute, the
event loop's pending `call_later` timers (fire time, command, original
callback), the current clock, and the warning log. -/
structure World where
  br : Breaker
  callbacks : Cmd → Handler
  bindings : Cmd → Option Nat
  timers : List (Nat × Cmd × Handler)
  now : Nat
  log : List LogMsg

/-- Models `self.errors.get(command, 0)` on the defaultdict. -/
def errGet (errors : Cmd → Option Nat) (c : Cmd) : Nat :=
  (errors c).getD 0

/-- Models `self.errors[command] = n` (pointwise dict update). -/
def errSet (errors : Cmd → Option Nat) (c : Cmd) (n : Nat) : Cmd → Option Nat :=
  fun c2 => if c2 = c then some n else errors c2

/-- Models `self.errors.pop(command, None)`. -/
def errPop (errors : Cmd → Option Nat) (c : Cmd) : Cmd → Option Nat :=
  fun c2 => if c2 = c then none else errors c2

/-- Source `tripped_breaker`: logs the trip warning, then reads the
`trip_callback` property (which raises `AttributeError` when the backing
field is unset); on a falsy callback it logs and returns; otherwise it
sets `tripped_at`, captures the live handler, installs the wrapper, and
schedules `reset_breaker` after `reset_after` seconds. -/
def tripped_breaker (w : World) (c : Cmd) : World × Option PyErr :=
  let w1 : World := { w with log := w.log ++ [.trippedWarning c] }
  match trip_callback_get w1.br.trip_cb with
  | .error e => (w1, some e)
  | .ok cb =>
      if !cbTruthy cb then
        ({ w1 with log := w1.log ++ [.noTripCallbackWarning] }, none)
      else
        let orig := w1.callbacks c
        ({ w1 with
            br := { w1.br with tripped_at := some w1.now },
            callbacks := fun c2 =>
              if c2 = c then .wrapped orig (w1.bindings c) else w1.callbacks c2,
            timers := w1.timers ++ [(w1.now + w1.br.reset_after, c, orig)] },
          none)

/-- Source `reset_breaker`: logs, clears `tripped_at`, restores the original
callback into the command's `_callback` slot, and pops the registry
entry. -/
def reset_breaker (w : World) (c : Cmd) (original_callback : Handler) : World :=
  { w with
      log := w.log ++ [.resetWarning c],
      br := { w.br with
                tripped_at := none,
                errors := errPop w.br.errors c },
      callbacks := fun c2 =>
        if c2 = c then original_callback else w.callbacks c2 }

/-- The event loop fires the next pending timer: removes it from the queue
and invokes `reset_breaker` with the scheduled command and original
callback. -/
def fire_next_timer (w : World) : World :=
  match w.timers with
  | [] => w
  | e :: rest => reset_breaker { w with timers := rest } e.2.1 e.2.2

/-- First argument of `handle_cutter`: a `discord.Interaction` (whose
`.command` may be `None`) or an `ext.commands.Context` (whose
`.interaction` may be `None`). -/
inductive CtxArg where
  | interaction (cmd : Option Cmd)
  | context (inter : Option (Option Cmd))
deriving DecidableEq

/-- The `isinstance(interaction, Context)` prologue of `handle_cutter`:
a `Context` without an interaction raises `TypeError`; otherwise the
resolved interaction's `.command` is returned. -/
def resolve_ctx : CtxArg → Except PyErr (Option Cmd)
  | .interaction cmd => .ok cmd
  | .context none => .error .typeError
  | .context (some cmd) => .ok cmd

/-- Source `handle_cutter`: resolves the command; returns when there is none;
returns when the stored count already reached the threshold; otherwise
increments the count and, when the new count reaches the threshold, calls
`tripped_breaker`. -/
def handle_cutter (w : World) (arg : CtxArg) : World × Option PyErr :=
  match resolve_ctx arg with
  | .error e => (w, some e)
  | .ok none => (w, none)
  | .ok (some c) =>
      if (errGet w.br.errors c : Int) ≥ w.br.threshold then (w, none)
      else
        let n := errGet w.br.errors c + 1
        let w1 : World := { w with br := { w.br with errors := errSet w.br.errors c n } }
        if (n : Int) ≥ w1.br.threshold then tripped_breaker w1 c
        else (w1, none)

/-- Result of one of the installed error hooks: the world after the call,
the `(context, error)` pair forwarded to the previously installed handler
(`none` when it was never invoked), and the exception that escaped the
hook, if any. -/
structure HookRes where
  world : World
  forwarded : Option (CtxArg × Nat)
  exc : Option PyErr

/-- Source `_tree_on_error`: awaits `handle_cutter`, then awaits the previously
installed tree `on_error` with the same interaction and error.  An
exception escaping `handle_cutter` propagates and skips the forward. -/
def tree_on_error (w : World) (cmd : Option Cmd) (err : Nat) : HookRes :=
  match handle_cutter w (.interaction cmd) with
  | (w1, some e) => ⟨w1, none, some e⟩
  | (w1, none) => ⟨w1, some (.interaction cmd, err), none⟩

/-- Source `_on_hybridcommand_on_error`: runs `handle_cutter` only when
`ctx.interaction` is not `None`, then forwards `(ctx, error)` to the
previously captured `on_command_error` when one was captured. -/
def on_hybridcommand_on_error (w : World) (ctxInter : Option (Option Cmd))
    (err : Nat) : HookRes :=
  match ctxInter with
  | none =>
      if w.br.origCmdErr then ⟨w, some (.context none, err), none⟩
      else ⟨w, none, none⟩
  | some cmd =>
      match handle_cutter w (.interaction cmd) with
      | (w1, some e) => ⟨w1, none, some e⟩
      | (w1, none) =>
          if w1.br.origCmdErr then ⟨w1, some (.context (some cmd), err), none⟩
          else ⟨w1, none, none⟩

/-- A positional argument of a live-handler invocation: a receiver/cog, a
`discord.Interaction`, an `ext.commands.Context` (with its optional
interaction), or any other value. -/
inductive Arg where
  | receiverArg (r : Nat)
  | interactionArg (i : Nat)
  | contextArg (inter : Option Nat)
  | otherArg (n : Nat)
deriving DecidableEq

/-- What the wrapper installed by `__wrap_trip_callback` did when invoked:
awaited `self.trip_callback` with the given value, or returned `None`
without calling it. -/
inductive InvokeRes where
  | tripCalled (a : Arg)
  | retNone
deriving DecidableEq

/-- The body of the wrapper returned by `__wrap_trip_callback`, as a
function of the captured `binding`, the breaker's `trip_callback` backing
field at invocation time, and the positional call arguments.  Source:
`interaction_arg = args[0] if binding else args[1]`; a `Context` is
unwrapped to its interaction (raising `TypeError` when it has none); then
`self.trip_callback` is read and, being truthy, awaited with the extracted
value.  The original handler is never invoked. -/
def wrapper_invoke (binding : Option Nat) (trip_cb : Option CB)
    (args : List Arg) : Except PyErr InvokeRes :=
  let idx := if binding.isSome then 0 else 1
  match args.get? idx with
  | none => .error .indexError
  | some a =>
      match (match a with
             | .contextArg none => Except.error PyErr.typeError
             | .contextArg (some i) => Except.ok (Arg.interactionArg i)
             | x => Except.ok x : Except PyErr Arg) with
      | .error e => .error e
      | .ok a2 =>
          match trip_callback_get trip_cb with
          | .error e => .error e
          | .ok cb => if cbTruthy cb then .ok (.tripCalled a2) else .ok .retNone

/-- Modelled from the spec: the host dispatch framework (discord.py) is
not part of this repository.  Per the spec, the wrapper must handle "both
a bound-method-style call and a free-function-style call, i.e. whether a
receiver/self argument is present": when the command has a binding the
host invokes the stored plain-function callback with the receiver first,
followed by the execution context; otherwise with the execution context
alone. -/
def host_call_args (binding : Option Nat) (ctxArg : Arg) : List Arg :=
  match binding with
  | some r => [.receiverArg r, ctxArg]
  | none => [ctxArg]

/-- Source `Cordcutter.__init__`: hooks the tree `on_error` (and the client
`on_command_error` iff `hybrid_app_command` is set and the client is a
`commands.Bot`), normalises `reset_after`, runs the `trip_callback` setter
(whose `TypeError` propagates out of the constructor), and starts with an
empty `errors` defaultdict and `tripped_at = None`.  The commands' initial
`_callback` slots and `binding` attributes are the external state
`callbacks0` and `bindings0`; the clock starts at `0` with no pending
timers. -/
def cordcutter_init (threshold : Int) (reset_after : ResetAfterArg)
    (trip_callback : Option CB) (hybrid_app_command : Bool) (clientIsBot : Bool)
    (callbacks0 : Cmd → Handler) (bindings0 : Cmd → Option Nat) :
    Except PyErr World :=
  let origCmdErr := hybrid_app_command && clientIsBot
  match trip_callback_setter none trip_callback with
  | (_, some e) => .error e
  | (field, none) =>
      .ok { br := { threshold := threshold,
                    reset_after := reset_after_setter reset_after,
                    trip_cb := field,
                    errors := fun _ => none,
                    tripped_at := none,
                    origCmdErr := origCmdErr },
            callbacks := callbacks0,
            bindings := bindings0,
            timers := [],
            now := 0,
            log := [] }

/-- The `trip_callback` property setter applied to a breaker instance. -/
def set_trip_callback (w : World) (cb : Option CB) : World × Option PyErr :=
  match trip_callback_setter w.br.trip_cb cb with
  | (f, e) => ({ w with br := { w.br with trip_cb := f } }, e)

/-- The `on_tripped_call` decorator: assigns to the `trip_callback`
property and returns the callback (no return value when the setter
raises). -/
def on_tripped_call (w : World) (cb : CB) : World × Option PyErr × Option CB :=
  match set_trip_callback w (some cb) with
  | (w1, some e) => (w1, some e, none)
  | (w1, none) => (w1, none, some cb)

/-- Is the command's `_callback` slot currently holding a trip wrapper? -/
def isWrapped : Handler → Bool
  | .original _ => false
  | .wrapped _ _ => true

/-- A command is currently tripped when its failure count has reached the
threshold (the guard `handle_cutter` uses to suppress further counting)
and its live handler is the installed wrapper. -/
def commandTripped (w : World) (c : Cmd) : Bool :=
  decide ((errGet w.br.errors c : Int) ≥ w.br.threshold) && isWrapped (w.callbacks c)

/-- Delivering `n` consecutive failures of command `c` (error value `err`)
through the tree error hook. -/
def deliver_failures (w : World) (c : Cmd) (err : Nat) : Nat → World
  | 0 => w
  | n + 1 => (tree_on_error (deliver_failures w c err n) (some c) err).world

/-- A coroutine-function trip callback used for concrete runs. -/
def cb0 : CB := ⟨0, true⟩

/-- A non-coroutine callable used for concrete runs. -/
def cb1 : CB := ⟨1, false⟩

/-- A freshly initialised breaker: threshold 3, `reset_after` 5 minutes,
trip callback `cb0`, pristine commands (command `c` holds its original
handler and has no binding), empty registry, no pending timers. -/
def wInit : World :=
  { br := { threshold := 3, reset_after := 300, trip_cb := some cb0,
            errors := fun _ => none, tripped_at := none, origCmdErr := false },
    callbacks := fun c => .original c, bindings := fun _ => none,
    timers := [], now := 0, log := [] }

/-- Like `wInit` but with the `trip_callback` backing field never assigned (the
state produced by constructing with the default `trip_callback=None`). -/
def wNoCb : World := { wInit with br := { wInit.br with trip_cb := none } }

/-- Like `wInit` but with threshold 1. -/
def wThr1 : World := { wInit with br := { wInit.br with threshold := 1 } }

/-- C9: assigning a non-None value that is not a coroutine function to
`trip_callback` — via the constructor, the property setter, or the
`on_tripped_call` decorator — raises `TypeError` at the moment of
assignment and leaves the stored callback unchanged; assigning a
coroutine function succeeds and stores it. -/
theorem trip_callback_validation (field : Option CB) (w : World) (bad good : CB)
    (threshold : Int) (ra : ResetAfterArg) (hy bot : Bool)
    (cbs : Cmd → Handler) (bnd : Cmd → Option Nat)
    (hbad : bad.isCoroutineFn = false) (hgood : good.isCoroutineFn = true) :
    trip_callback_setter field (some bad) = (field, some .typeError)
    ∧ trip_callback_setter field (some good) = (some good, none)
    ∧ cordcutter_init threshold ra (some bad) hy bot cbs bnd = .error .typeError
    ∧ cordcutter_init threshold ra (some good) hy bot cbs bnd
        = .ok { br := { threshold := threshold, reset_after := reset_after_setter ra,
                        trip_cb := some good, errors := fun _ => none,
                        tripped_at := none, origCmdErr := hy && bot },
                callbacks := cbs, bindings := bnd, timers := [], now := 0, log := [] }
    ∧ set_trip_callback w (some bad) = (w, some .typeError)
    ∧ (set_trip_callback w (some good)).1.br.trip_cb = some good
    ∧ (set_trip_callback w (some good)).2 = none
    ∧ on_tripped_call w bad = (w, some .typeError, none)
    ∧ (on_tripped_call w good).1.br.trip_cb = some good
    ∧ (on_tripped_call w good).2 = (none, some good) := by
  simp [trip_callback_setter, cordcutter_init, set_trip_callback, on_tripped_call,
    hbad, hgood]

/-- Witness for C9 at `field = none`, `w = wInit`, `bad = cb1`,
`good = cb0`. -/
theorem trip_callback_validation_witness :
    cb1.isCoroutineFn = false ∧ cb0.isCoroutineFn = true
    ∧ trip_callback_setter none (some cb1) = (none, some .typeError)
    ∧ (set_trip_callback wInit (some cb0)).1.br.trip_cb = some cb0 :=
  ⟨rfl, rfl,
    (trip_callback_validation none wInit cb1 cb0 3 .noneArg true true
      (fun c => .original c) (fun _ => none) rfl rfl).1,
    (trip_callback_validation none wInit cb1 cb0 3 .noneArg true true
      (fun c => .original c) (fun _ => none) rfl rfl).2.2.2.2.2.1⟩

/-- Helper: when the stored count already reached the threshold,
`handle_cutter` returns the world unchanged. -/
lemma handle_cutter_at_threshold (w : World) (c : Cmd)
    (h : (errGet w.br.errors c : Int) ≥ w.br.threshold) :
    handle_cutter w (.interaction (some c)) = (w, none) := by
  simp [handle_cutter, resolve_ctx, h]

/-- C5: once a command's stored failure count has reached the threshold
(the state a trip leaves behind), a further failure of that command is a
no-op: `handle_cutter` returns the world unchanged (count unchanged, no
second trip, nothing logged), and the tree hook still forwards the error. -/
theorem tripped_failures_are_noops (w : World) (c : Cmd) (err : Nat)
    (h : (errGet w.br.errors c : Int) ≥ w.br.threshold) :
    handle_cutter w (.interaction (some c)) = (w, none)
    ∧ tree_on_error w (some c) err = ⟨w, some (.interaction (some c), err), none⟩ := by
  have hc := handle_cutter_at_threshold w c h
  exact ⟨hc, by simp [tree_on_error, hc]⟩

/-- Witness for C5: after three failures of command 0 in `wInit` the
breaker is at threshold and a fourth failure is a no-op. -/
theorem tripped_failures_are_noops_witness :
    ((errGet (deliver_failures wInit 0 9 3).br.errors 0 : Int)
        ≥ (deliver_failures wInit 0 9 3).br.threshold)
    ∧ handle_cutter (deliver_failures wInit 0 9 3) (.interaction (some 0))
        = (deliver_failures wInit 0 9 3, none) :=
  ⟨by decide, (tripped_failures_are_noops (deliver_failures wInit 0 9 3) 0 9 (by decide)).1⟩

/-- C3 (the code evaluated at the failing inputs): under the host
convention of `host_call_args` (receiver first when a binding is present,
execution context alone otherwise), the wrapper installed while tripped
does not extract the execution context: with a binding it awaits
`trip_callback` with the receiver (it picks index 0), and without a
binding it raises `IndexError` (it reads index 1 of a one-element argument
list).  The claimed behavior would be `.ok (.tripCalled (.interactionArg 7))`
in the first two cases and `.ok (.tripCalled (.interactionArg 8))` in the
hybrid one. -/
theorem wrapper_misselects_context_argument :
    wrapper_invoke (some 5) (some cb0) (host_call_args (some 5) (.interactionArg 7))
      = .ok (.tripCalled (.receiverArg 5))
    ∧ wrapper_invoke none (some cb0) (host_call_args none (.interactionArg 7))
      = .error .indexError
    ∧ wrapper_invoke (some 5) (some cb0) (host_call_args (some 5) (.contextArg (some 8)))
      = .ok (.tripCalled (.receiverArg 5)) :=
  ⟨rfl, rfl, rfl⟩

/-- C2 (the code evaluated at the failing input): with the `trip_callback`
backing field unset (the state after constructing with the default
`trip_callback=None`), the threshold-th failure of command 0 delivered to
the tree error hook raises `AttributeError` out of `tripped_breaker`, and
the previously installed handler is never invoked — the original error is
swallowed.  The other branches (no resolvable command, counted below
threshold, already at threshold) do forward. -/
theorem tree_hook_swallows_error_when_callback_unset :
    (tree_on_error (deliver_failures wNoCb 0 9 2) (some 0) 9).forwarded = none
    ∧ (tree_on_error (deliver_failures wNoCb 0 9 2) (some 0) 9).exc
        = some .attributeError
    ∧ (tree_on_error wNoCb none 9).forwarded = some (.interaction none, 9)
    ∧ (tree_on_error wNoCb (some 0) 9).forwarded = some (.interaction (some 0), 9)
    ∧ (tree_on_error (deliver_failures wNoCb 0 9 3) (some 0) 9).forwarded
        = some (.interaction (some 0), 9) := by
  decide

/-- C8 counterexample: reaching the threshold while `trip_callback` is
unset arms NO reset timer: after three failures of command 0 in `wNoCb`
the timer queue is empty, the registry entry remains at 3, the handler is
unmodified, and only the trip warning was logged (the no-callback warning
is unreachable: the property read raises first).  Nothing is ever restored
or cleared, contradicting the claim that the timer still fires after
`reset_after`. -/
theorem no_reset_timer_when_callback_unset :
    (deliver_failures wNoCb 0 9 3).timers = []
    ∧ (deliver_failures wNoCb 0 9 3).br.errors 0 = some 3
    ∧ (deliver_failures wNoCb 0 9 3).callbacks 0 = .original 0
    ∧ (deliver_failures wNoCb 0 9 3).log = [.trippedWarning 0]
    ∧ (deliver_failures wNoCb 0 9 3).br.tripped_at = none := by
  decide

/-- Helper: a threshold-crossing failure while the `trip_callback` backing
field is unset logs the trip warning, keeps the increment, and raises
`AttributeError`; the trip itself (timestamp, wrapper, timer) does not
happen. -/
lemma handle_cutter_cross_unset (w : World) (c : Cmd)
    (hcb : w.br.trip_cb = none)
    (hlow : (errGet w.br.errors c : Int) < w.br.threshold)
    (hcross : ((errGet w.br.errors c + 1 : Nat) : Int) ≥ w.br.threshold) :
    handle_cutter w (.interaction (some c))
      = ({ w with
            br := { w.br with errors := errSet w.br.errors c (errGet w.br.errors c + 1) },
            log := w.log ++ [.trippedWarning c] }, some .attributeError) := by
  simp only [handle_cutter, resolve_ctx, tripped_breaker, trip_callback_get, hcb,
    if_neg (not_le.mpr hlow), if_pos hcross]

/-- C10: constructing with the default `trip_callback=None` leaves the
backing field unset, every read of the `trip_callback` property raises
`AttributeError`, and in that state the threshold-crossing failure raises
`AttributeError` inside `tripped_breaker` instead of completing the trip:
`tripped_at`, the handler slots and the timer queue are untouched, while
the increment and the trip warning persist. -/
theorem default_callback_read_raises
    (threshold : Int) (ra : ResetAfterArg) (hy bot : Bool)
    (cbs : Cmd → Handler) (bnd : Cmd → Option Nat) (w : World) (c : Cmd)
    (hcb : w.br.trip_cb = none)
    (hlow : (errGet w.br.errors c : Int) < w.br.threshold)
    (hcross : ((errGet w.br.errors c + 1 : Nat) : Int) ≥ w.br.threshold) :
    (∃ w0, cordcutter_init threshold ra none hy bot cbs bnd = .ok w0
        ∧ w0.br.trip_cb = none)
    ∧ trip_callback_get none = .error .attributeError
    ∧ (handle_cutter w (.interaction (some c))).2 = some .attributeError
    ∧ (handle_cutter w (.interaction (some c))).1.br.tripped_at = w.br.tripped_at
    ∧ (handle_cutter w (.interaction (some c))).1.callbacks = w.callbacks
    ∧ (handle_cutter w (.interaction (some c))).1.timers = w.timers
    ∧ (handle_cutter w (.interaction (some c))).1.br.errors c
        = some (errGet w.br.errors c + 1)
    ∧ (handle_cutter w (.interaction (some c))).1.log
        = w.log ++ [.trippedWarning c] := by
  rw [handle_cutter_cross_unset w c hcb hlow hcross]
  exact ⟨⟨_, rfl, rfl⟩, rfl, rfl, rfl, rfl, rfl, by simp [errSet], rfl⟩

/-- Witness for C10: in `wNoCb` (threshold 3, callback never assigned)
with two prior failures of command 0 recorded, the third failure raises
`AttributeError` and does not complete the trip. -/
theorem default_callback_read_raises_witness :
    ((deliver_failures wNoCb 0 9 2).br.trip_cb = none
      ∧ (errGet (deliver_failures wNoCb 0 9 2).br.errors 0 : Int)
          < (deliver_failures wNoCb 0 9 2).br.threshold
      ∧ ((errGet (deliver_failures wNoCb 0 9 2).br.errors 0 + 1 : Nat) : Int)
          ≥ (deliver_failures wNoCb 0 9 2).br.threshold)
    ∧ ((handle_cutter (deliver_failures wNoCb 0 9 2) (.interaction (some 0))).2
          = some .attributeError
      ∧ (handle_cutter (deliver_failures wNoCb 0 9 2) (.interaction (some 0))).1.br.tripped_at
          = (deliver_failures wNoCb 0 9 2).br.tripped_at) :=
  ⟨⟨by decide, by decide, by decide⟩,
    (default_callback_read_raises 3 .noneArg true true (fun c => .original c)
        (fun _ => none) (deliver_failures wNoCb 0 9 2) 0 (by decide) (by decide)
        (by decide)).2.2.1,
    (default_callback_read_raises 3 .noneArg true true (fun c => .original c)
        (fun _ => none) (deliver_failures wNoCb 0 9 2) 0 (by decide) (by decide)
        (by decide)).2.2.2.1⟩

/-- C8 amended: if a command's failure count reaches the threshold while
the `trip_callback` backing field is unset, the trip warning is surfaced
and then the `trip_callback` property read raises `AttributeError`; the
handler is left unmodified, NO reset timer is armed, and the registry
entry remains at the threshold (so later failures are suppressed
no-ops and nothing ever restores or clears the entry). -/
theorem unset_callback_crossing_behavior (w : World) (c : Cmd)
    (hcb : w.br.trip_cb = none)
    (hlow : (errGet w.br.errors c : Int) < w.br.threshold)
    (hcross : ((errGet w.br.errors c + 1 : Nat) : Int) ≥ w.br.threshold) :
    (handle_cutter w (.interaction (some c))).1.log = w.log ++ [.trippedWarning c]
    ∧ (handle_cutter w (.interaction (some c))).2 = some .attributeError
    ∧ (handle_cutter w (.interaction (some c))).1.callbacks = w.callbacks
    ∧ (handle_cutter w (.interaction (some c))).1.timers = w.timers
    ∧ ((errGet (handle_cutter w (.interaction (some c))).1.br.errors c : Int)
        ≥ w.br.threshold)
    ∧ handle_cutter (handle_cutter w (.interaction (some c))).1 (.interaction (some c))
        = ((handle_cutter w (.interaction (some c))).1, none) := by
  rw [handle_cutter_cross_unset w c hcb hlow hcross]
  refine ⟨rfl, rfl, rfl, rfl, by simp [errGet, errSet]; exact_mod_cast hcross, ?_⟩
  exact handle_cutter_at_threshold _ c (by simp [errGet, errSet]; exact_mod_cast hcross)

/-- Witness for the amended C8: in `wNoCb` with two prior failures of
command 0, the crossing failure logs the trip warning, raises
`AttributeError`, arms no timer and leaves the handler unmodified. -/
theorem unset_callback_crossing_behavior_witness :
    ((deliver_failures wNoCb 0 9 2).br.trip_cb = none
      ∧ (errGet (deliver_failures wNoCb 0 9 2).br.errors 0 : Int)
          < (deliver_failures wNoCb 0 9 2).br.threshold
      ∧ ((errGet (deliver_failures wNoCb 0 9 2).br.errors 0 + 1 : Nat) : Int)
          ≥ (deliver_failures wNoCb 0 9 2).br.threshold)
    ∧ (handle_cutter (deliver_failures wNoCb 0 9 2) (.interaction (some 0))).1.timers
        = (deliver_failures wNoCb 0 9 2).timers
    ∧ (handle_cutter (deliver_failures wNoCb 0 9 2) (.interaction (some 0))).1.callbacks
        = (deliver_failures wNoCb 0 9 2).callbacks :=
  ⟨⟨by decide, by decide, by decide⟩,
    (unset_callback_crossing_behavior (deliver_failures wNoCb 0 9 2) 0
      (by decide) (by decide) (by decide)).2.2.2.1,
    (unset_callback_crossing_behavior (deliver_failures wNoCb 0 9 2) 0
      (by decide) (by decide) (by decide)).2.2.1⟩

/-- The run behind the C6 counterexample: threshold 1; command 0 fails and
trips at time 0, then command 1 fails and trips; then command 0's reset
timer fires. -/
def wC6run : World :=
  fire_next_timer (deliver_failures (deliver_failures wThr1 0 9 1) 1 9 1)

/-- C6 counterexample: `tripped_at` is one instance-global field, not a
per-command timestamp.  In `wC6run` command 1 is currently tripped (count
at threshold, wrapper installed, no intervening reset of command 1) yet
`tripped_at = none`, because command 0's reset cleared it.  Before the
reset both commands were tripped with `tripped_at = some 0`.  This refutes
"non-None iff that command is currently tripped". -/
theorem tripped_at_shared_across_commands :
    commandTripped wC6run 1 = true
    ∧ wC6run.br.tripped_at = none
    ∧ commandTripped (deliver_failures (deliver_failures wThr1 0 9 1) 1 9 1) 1 = true
    ∧ (deliver_failures (deliver_failures wThr1 0 9 1) 1 9 1).br.tripped_at = some 0 := by
  decide

/-- C6 amended: `tripped_at` is instance-global rather than per-command:
a successful trip of any command sets it to the trip time, any reset of
any command clears it to `None`, and it starts out `None` at
construction. -/
theorem tripped_at_tracks_last_trip_or_reset (w : World) (c : Cmd)
    (orig : Handler) (cb : CB) (hcb : w.br.trip_cb = some cb) :
    (tripped_breaker w c).1.br.tripped_at = some w.now
    ∧ (reset_breaker w c orig).br.tripped_at = none
    ∧ (∀ threshold ra tcb hy bot cbs bnd w0,
        cordcutter_init threshold ra tcb hy bot cbs bnd = .ok w0 →
        w0.br.tripped_at = none) := by
  refine ⟨?_, rfl, ?_⟩
  · simp [tripped_breaker, trip_callback_get, hcb, cbTruthy]
  · intro threshold ra tcb hy bot cbs bnd w0 h
    unfold cordcutter_init at h
    split at h
    · exact absurd h (by simp)
    · simp only [Except.ok.injEq] at h
      rw [← h]

/-- Witness for the amended C6 at `w = wInit`, `c = 0`. -/
theorem tripped_at_tracks_last_trip_or_reset_witness :
    wInit.br.trip_cb = some cb0
    ∧ (tripped_breaker wInit 0).1.br.tripped_at = some wInit.now
    ∧ (reset_breaker wInit 0 (.original 0)).br.tripped_at = none :=
  ⟨rfl,
    (tripped_at_tracks_last_trip_or_reset wInit 0 (.original 0) cb0 rfl).1,
    (tripped_at_tracks_last_trip_or_reset wInit 0 (.original 0) cb0 rfl).2.1⟩

/-- Helper: updating the same key twice keeps only the second value. -/
lemma errSet_errSet (e : Cmd → Option Nat) (c : Cmd) (m n : Nat) :
    errSet (errSet e c m) c n = errSet e c n := by
  funext c2
  by_cases h : c2 = c <;> simp [errSet, h]

/-- Helper: reading the key just written. -/
lemma errGet_errSet (e : Cmd → Option Nat) (c : Cmd) (n : Nat) :
    errGet (errSet e c n) c = n := by
  simp [errGet, errSet]

/-- Helper: a write to another key is invisible. -/
lemma errSet_ne (e : Cmd → Option Nat) (c : Cmd) (n : Nat) (c2 : Cmd) (h : c2 ≠ c) :
    errSet e c n c2 = e c2 := by
  simp [errSet, h]

/-- Helper: `tree_on_error` forwards the world `handle_cutter` produced. -/
lemma tree_step_world (w : World) (c : Option Cmd) (e : Nat) :
    (tree_on_error w c e).world = (handle_cutter w (.interaction c)).1 := by
  unfold tree_on_error
  rcases h : handle_cutter w (.interaction c) with ⟨w1, _ | exc⟩ <;> simp [h]

/-- Helper: a failure that stays strictly below the threshold only
increments the count. -/
lemma handle_cutter_no_trip (w : World) (c : Cmd)
    (hlow : (errGet w.br.errors c : Int) < w.br.threshold)
    (hstill : ((errGet w.br.errors c + 1 : Nat) : Int) < w.br.threshold) :
    handle_cutter w (.interaction (some c))
      = ({ w with br := { w.br with
            errors := errSet w.br.errors c (errGet w.br.errors c + 1) } }, none) := by
  simp only [handle_cutter, resolve_ctx, if_neg (not_le.mpr hlow),
    if_neg (not_le.mpr hstill)]

/-- Helper: the threshold-crossing failure with a (truthy) callback
installed performs the full trip: increment, trip warning, timestamp,
wrapper installation capturing the live handler and the binding, and one
scheduled reset carrying the captured handler. -/
lemma handle_cutter_trip (w : World) (c : Cmd) (cb : CB)
    (hcb : w.br.trip_cb = some cb)
    (hlow : (errGet w.br.errors c : Int) < w.br.threshold)
    (hcross : ((errGet w.br.errors c + 1 : Nat) : Int) ≥ w.br.threshold) :
    handle_cutter w (.interaction (some c))
      = ({ w with
            br := { w.br with
                      errors := errSet w.br.errors c (errGet w.br.errors c + 1),
                      tripped_at := some w.now },
            callbacks := fun c2 =>
              if c2 = c then .wrapped (w.callbacks c) (w.bindings c)
              else w.callbacks c2,
            timers := w.timers ++ [(w.now + w.br.reset_after, c, w.callbacks c)],
            log := w.log ++ [.trippedWarning c] }, none) := by
  simp only [handle_cutter, resolve_ctx, tripped_breaker, trip_callback_get, hcb,
    cbTruthy, Bool.not_true, Bool.false_eq_true, if_false,
    if_neg (not_le.mpr hlow), if_pos hcross]

/-- The world after `n ≥ 1` counted failures of `c` and nothing else. -/
def countWorld (w : World) (c : Cmd) (n : Nat) : World :=
  { w with br := { w.br with errors := errSet w.br.errors c n } }

/-- Helper: below the threshold, delivering `n` failures of a clean
command through the tree hook only stores the count `n`. -/
lemma deliver_below (w : World) (c : Cmd) (e : Nat) (T : Nat)
    (hT : w.br.threshold = (T : Int)) (hclean : w.br.errors c = none) :
    ∀ n, 0 < n → n < T → deliver_failures w c e n = countWorld w c n := by
  intro n
  induction n with
  | zero => omega
  | succ m ih =>
    intro _ hm
    show (tree_on_error (deliver_failures w c e m) (some c) e).world = _
    rcases Nat.eq_zero_or_pos m with hm0 | hm0
    · subst hm0
      have h0 : errGet w.br.errors c = 0 := by simp [errGet, hclean]
      have hd0 : deliver_failures w c e 0 = w := rfl
      rw [tree_step_world, hd0, handle_cutter_no_trip w c
        (by rw [h0, hT]; exact_mod_cast (by omega : (0 : Nat) < T))
        (by rw [h0, hT]; exact_mod_cast hm)]
      rw [countWorld, h0]
    · rw [ih hm0 (by omega), tree_step_world, handle_cutter_no_trip (countWorld w c m) c
        (by simp [countWorld, errGet_errSet, hT]; exact_mod_cast (by omega : m < T))
        (by simp [countWorld, errGet_errSet, hT]; exact_mod_cast hm)]
      simp [countWorld, errGet_errSet, errSet_errSet]

/-- Helper: from a clean entry for `c`, with a callback installed and
threshold `T ≥ 1`, the `T`-th failure delivered through the tree hook
leaves exactly the tripped world: count `T`, timestamp, wrapper over the
handler captured at trip time, one scheduled reset, one trip warning. -/
lemma deliver_cross (w : World) (c : Cmd) (e : Nat) (T : Nat) (cb : CB)
    (hT : w.br.threshold = (T : Int)) (hTpos : 1 ≤ T)
    (hclean : w.br.errors c = none) (hcb : w.br.trip_cb = some cb) :
    deliver_failures w c e T
      = { w with
            br := { w.br with
                      errors := errSet w.br.errors c T,
                      tripped_at := some w.now },
            callbacks := fun c2 =>
              if c2 = c then .wrapped (w.callbacks c) (w.bindings c)
              else w.callbacks c2,
            timers := w.timers ++ [(w.now + w.br.reset_after, c, w.callbacks c)],
            log := w.log ++ [.trippedWarning c] } := by
  rcases T with _ | m
  · omega
  · show (tree_on_error (deliver_failures w c e m) (some c) e).world = _
    rcases Nat.eq_zero_or_pos m with hm0 | hm0
    · subst hm0
      have h0 : errGet w.br.errors c = 0 := by simp [errGet, hclean]
      have hd0 : deliver_failures w c e 0 = w := rfl
      rw [tree_step_world, hd0, handle_cutter_trip w c cb hcb
        (by rw [h0, hT]; exact_mod_cast Nat.zero_lt_one)
        (by rw [h0, hT])]
      rw [h0]
    · rw [tree_step_world, deliver_below w c e (m + 1) hT hclean m hm0 (by omega),
        handle_cutter_trip (countWorld w c m) c cb hcb
          (by simp [countWorld, errGet_errSet, hT])
          (by simp [countWorld, errGet_errSet, hT])]
      simp [countWorld, errGet_errSet, errSet_errSet]

/-- C1: starting from a clean registry entry for command `c`, with a
coroutine trip callback installed and threshold `T ≥ 1`, delivering `T-1`
failures through the breaker's error hook leaves the command untripped —
count `T-1`, no trip warning, `tripped_at` untouched, the live handler
untouched — and delivering the `T`-th failure trips it, with the trip
action (trip warning, timestamp, wrapper installation) performed exactly
once, on that crossing failure only. -/
theorem breaker_trips_at_threshold (w : World) (c : Cmd) (e : Nat) (T : Nat) (cb : CB)
    (hT : w.br.threshold = (T : Int)) (hTpos : 1 ≤ T)
    (hclean : w.br.errors c = none) (hcb : w.br.trip_cb = some cb)
    (hlog : w.log.count (LogMsg.trippedWarning c) = 0) :
    (commandTripped (deliver_failures w c e (T - 1)) c = false
      ∧ ((deliver_failures w c e (T - 1)).log).count (LogMsg.trippedWarning c) = 0
      ∧ (deliver_failures w c e (T - 1)).br.tripped_at = w.br.tripped_at
      ∧ (deliver_failures w c e (T - 1)).callbacks c = w.callbacks c)
    ∧ (commandTripped (deliver_failures w c e T) c = true
      ∧ ((deliver_failures w c e T).log).count (LogMsg.trippedWarning c) = 1
      ∧ (deliver_failures w c e T).br.tripped_at = some w.now
      ∧ (deliver_failures w c e T).callbacks c
          = .wrapped (w.callbacks c) (w.bindings c)) := by
  constructor
  · rcases Nat.eq_zero_or_pos (T - 1) with h1 | h1
    · rw [h1]
      have hd0 : deliver_failures w c e 0 = w := rfl
      rw [hd0]
      refine ⟨?_, hlog, rfl, rfl⟩
      simp only [commandTripped, Bool.and_eq_false_imp, decide_eq_true_eq]
      intro habs
      rw [errGet, hclean, hT] at habs
      simp at habs
      omega
    · rw [deliver_below w c e T hT hclean (T - 1) h1 (by omega)]
      refine ⟨?_, hlog, rfl, rfl⟩
      simp only [commandTripped, countWorld, Bool.and_eq_false_imp, decide_eq_true_eq]
      intro habs
      rw [errGet_errSet, hT] at habs
      have : T - 1 ≥ T := by exact_mod_cast habs
      omega
  · rw [deliver_cross w c e T cb hT hTpos hclean hcb]
    refine ⟨?_, ?_, rfl, by simp⟩
    · simp [commandTripped, errGet_errSet, hT, isWrapped]
    · simp [List.count_append, hlog]

/-- Witness for C1: `wInit` (threshold 3, callback `cb0`), command 0. -/
theorem breaker_trips_at_threshold_witness :
    (wInit.br.threshold = ((3 : Nat) : Int) ∧ wInit.br.errors 0 = none
      ∧ wInit.br.trip_cb = some cb0 ∧ wInit.log.count (LogMsg.trippedWarning 0) = 0)
    ∧ commandTripped (deliver_failures wInit 0 9 2) 0 = false
    ∧ commandTripped (deliver_failures wInit 0 9 3) 0 = true
    ∧ ((deliver_failures wInit 0 9 3).log).count (LogMsg.trippedWarning 0) = 1 :=
  ⟨⟨rfl, rfl, rfl, rfl⟩,
    (breaker_trips_at_threshold wInit 0 9 3 cb0 rfl (by decide) rfl rfl rfl).1.1,
    (breaker_trips_at_threshold wInit 0 9 3 cb0 rfl (by decide) rfl rfl rfl).2.1,
    (breaker_trips_at_threshold wInit 0 9 3 cb0 rfl (by decide) rfl rfl rfl).2.2.1⟩

/-- Helper: `tripped_breaker` never touches the failure registry. -/
lemma tripped_breaker_errors (w : World) (c : Cmd) :
    (tripped_breaker w c).1.br.errors = w.br.errors := by
  unfold tripped_breaker trip_callback_get
  rcases h : w.br.trip_cb with _ | cb <;> simp [h, cbTruthy]

/-- Helper: a failure below the threshold stores count `+1` whether or not
the increment crosses the threshold. -/
lemma handle_cutter_incr (w : World) (c : Cmd)
    (hlow : (errGet w.br.errors c : Int) < w.br.threshold) :
    (handle_cutter w (.interaction (some c))).1.br.errors c
      = some (errGet w.br.errors c + 1) := by
  simp only [handle_cutter, resolve_ctx, if_neg (not_le.mpr hlow)]
  split
  · rw [tripped_breaker_errors]
    simp [errSet]
  · simp [errSet]

/-- Helper: firing the only pending timer runs `reset_breaker` on the
scheduled command and original callback with the queue emptied. -/
lemma fire_single (w : World) (t : Nat) (c : Cmd) (h : Handler)
    (ht : w.timers = [(t, c, h)]) :
    fire_next_timer w = reset_breaker { w with timers := [] } c h := by
  rw [fire_next_timer, ht]

/-- Helper: what `reset_breaker` does to the fields the claims read. -/
lemma reset_breaker_spec (w : World) (c : Cmd) (orig : Handler) :
    (reset_breaker w c orig).br.errors c = none
    ∧ (reset_breaker w c orig).callbacks c = orig
    ∧ (reset_breaker w c orig).br.tripped_at = none
    ∧ (reset_breaker w c orig).timers = w.timers
    ∧ (reset_breaker w c orig).br.threshold = w.br.threshold
    ∧ (reset_breaker w c orig).br.trip_cb = w.br.trip_cb := by
  simp [reset_breaker, errPop]

/-- C4: from a clean start (clean entry for `c`, callback installed,
threshold `T ≥ 1`, no pending timers), the trip at the `T`-th failure
schedules exactly one reset — due `reset_after` after the trip moment and
carrying the live handler captured at trip time — and when the event loop
fires it, the command is no longer tripped, its registry entry is absent,
`tripped_at` is cleared, the live handler is the captured original again,
and a subsequent failure restarts counting at 1. -/
theorem reset_restores_command (w : World) (c : Cmd) (e : Nat) (T : Nat) (cb : CB)
    (hT : w.br.threshold = (T : Int)) (hTpos : 1 ≤ T)
    (hclean : w.br.errors c = none) (hcb : w.br.trip_cb = some cb)
    (htimers : w.timers = []) :
    (deliver_failures w c e T).timers
        = [(w.now + w.br.reset_after, c, w.callbacks c)]
    ∧ commandTripped (fire_next_timer (deliver_failures w c e T)) c = false
    ∧ (fire_next_timer (deliver_failures w c e T)).br.errors c = none
    ∧ (fire_next_timer (deliver_failures w c e T)).callbacks c = w.callbacks c
    ∧ (fire_next_timer (deliver_failures w c e T)).br.tripped_at = none
    ∧ (fire_next_timer (deliver_failures w c e T)).timers = []
    ∧ (handle_cutter (fire_next_timer (deliver_failures w c e T))
        (.interaction (some c))).1.br.errors c = some 1 := by
  have ht1 : (deliver_failures w c e T).timers
      = [(w.now + w.br.reset_after, c, w.callbacks c)] := by
    rw [deliver_cross w c e T cb hT hTpos hclean hcb, htimers]
    simp
  have hthr : (deliver_failures w c e T).br.threshold = (T : Int) := by
    rw [deliver_cross w c e T cb hT hTpos hclean hcb]
    exact hT
  have hfire := fire_single (deliver_failures w c e T) _ _ _ ht1
  rw [hfire]
  have hs := reset_breaker_spec
    { deliver_failures w c e T with timers := [] } c (w.callbacks c)
  obtain ⟨hs1, hs2, hs3, hs4, hs5, _⟩ := hs
  have hg : errGet (reset_breaker { deliver_failures w c e T with timers := [] }
      c (w.callbacks c)).br.errors c = 0 := by
    rw [errGet, hs1]
    rfl
  have hthr2 : (reset_breaker { deliver_failures w c e T with timers := [] }
      c (w.callbacks c)).br.threshold = (T : Int) := by
    rw [hs5]
    exact hthr
  refine ⟨ht1, ?_, hs1, hs2, hs3, by rw [hs4], ?_⟩
  · rw [commandTripped, hg, hthr2]
    simp
    omega
  · rw [handle_cutter_incr _ c (by rw [hg, hthr2]; exact_mod_cast hTpos), hg]

/-- Witness for C4: `wInit`, command 0: the trip at the third failure
schedules one reset at 300 seconds and firing it restores everything. -/
theorem reset_restores_command_witness :
    (wInit.br.threshold = ((3 : Nat) : Int) ∧ wInit.br.errors 0 = none
      ∧ wInit.br.trip_cb = some cb0 ∧ wInit.timers = [])
    ∧ (deliver_failures wInit 0 9 3).timers = [(300, 0, .original 0)]
    ∧ (fire_next_timer (deliver_failures wInit 0 9 3)).br.errors 0 = none
    ∧ (fire_next_timer (deliver_failures wInit 0 9 3)).callbacks 0 = .original 0 :=
  ⟨⟨rfl, rfl, rfl, rfl⟩,
    (reset_restores_command wInit 0 9 3 cb0 rfl (by decide) rfl rfl rfl).1,
    (reset_restores_command wInit 0 9 3 cb0 rfl (by decide) rfl rfl rfl).2.2.1,
    (reset_restores_command wInit 0 9 3 cb0 rfl (by decide) rfl rfl rfl).2.2.2.1⟩

/-- Helper: `commandTripped` only reads the command's counter, the
threshold and the command's handler slot. -/
lemma commandTripped_congr (w1 w2 : World) (b : Cmd)
    (he : w1.br.errors b = w2.br.errors b)
    (ht : w1.br.threshold = w2.br.threshold)
    (hc : w1.callbacks b = w2.callbacks b) :
    commandTripped w1 b = commandTripped w2 b := by
  rw [commandTripped, commandTripped, errGet, errGet, he, ht, hc]

/-- Helper: a trip of `a` leaves every other command's counter, handler
and the threshold unchanged. -/
lemma tripped_breaker_frame (w : World) (a b : Cmd) (hab : a ≠ b) :
    (tripped_breaker w a).1.br.errors b = w.br.errors b
    ∧ (tripped_breaker w a).1.callbacks b = w.callbacks b
    ∧ (tripped_breaker w a).1.br.threshold = w.br.threshold := by
  have hba : b ≠ a := Ne.symm hab
  unfold tripped_breaker trip_callback_get
  rcases h : w.br.trip_cb with _ | cb <;> simp [h, cbTruthy, hba]

/-- Helper: a failure of `a` leaves every other command's counter, handler
and the threshold unchanged. -/
lemma handle_cutter_frame (w : World) (a b : Cmd) (hab : a ≠ b) :
    (handle_cutter w (.interaction (some a))).1.br.errors b = w.br.errors b
    ∧ (handle_cutter w (.interaction (some a))).1.callbacks b = w.callbacks b
    ∧ (handle_cutter w (.interaction (some a))).1.br.threshold = w.br.threshold := by
  have hba : b ≠ a := Ne.symm hab
  simp only [handle_cutter, resolve_ctx]
  split
  · simp
  · split
    · refine ⟨?_, ?_, ?_⟩
      · rw [(tripped_breaker_frame _ a b hab).1]
        simp [errSet_ne _ _ _ _ hba]
      · rw [(tripped_breaker_frame _ a b hab).2.1]
      · rw [(tripped_breaker_frame _ a b hab).2.2]
    · simp [errSet_ne _ _ _ _ hba]

/-- C7: for distinct commands `a ≠ b`, a failure of `a` delivered through
the tree hook, a trip of `a`, and a reset of `a` each leave `b`'s failure
counter, `b`'s live handler, and `b`'s tripped status unchanged. -/
theorem distinct_commands_independent (w : World) (a b : Cmd) (err : Nat)
    (orig : Handler) (hab : a ≠ b) :
    ((tree_on_error w (some a) err).world.br.errors b = w.br.errors b
      ∧ (tree_on_error w (some a) err).world.callbacks b = w.callbacks b
      ∧ commandTripped (tree_on_error w (some a) err).world b = commandTripped w b)
    ∧ ((tripped_breaker w a).1.br.errors b = w.br.errors b
      ∧ (tripped_breaker w a).1.callbacks b = w.callbacks b
      ∧ commandTripped (tripped_breaker w a).1 b = commandTripped w b)
    ∧ ((reset_breaker w a orig).br.errors b = w.br.errors b
      ∧ (reset_breaker w a orig).callbacks b = w.callbacks b
      ∧ commandTripped (reset_breaker w a orig) b = commandTripped w b) := by
  have hba : b ≠ a := Ne.symm hab
  have hh := handle_cutter_frame w a b hab
  have htb := tripped_breaker_frame w a b hab
  have hr1 : (reset_breaker w a orig).br.errors b = w.br.errors b := by
    simp [reset_breaker, errPop, hba]
  have hr2 : (reset_breaker w a orig).callbacks b = w.callbacks b := by
    simp [reset_breaker, hba]
  have hr3 : (reset_breaker w a orig).br.threshold = w.br.threshold := rfl
  refine ⟨⟨?_, ?_, ?_⟩, ⟨htb.1, htb.2.1, ?_⟩, hr1, hr2, ?_⟩
  · rw [tree_step_world, hh.1]
  · rw [tree_step_world, hh.2.1]
  · rw [tree_step_world]
    exact commandTripped_congr _ w b hh.1 hh.2.2 hh.2.1
  · exact commandTripped_congr _ w b htb.1 htb.2.2 htb.2.1
  · exact commandTripped_congr _ w b hr1 hr3 hr2

/-- Witness for C7 at `w = deliver_failures wInit 0 9 3` (command 0 just
tripped), `a = 0`, `b = 1`. -/
theorem distinct_commands_independent_witness :
    (0 : Cmd) ≠ (1 : Cmd)
    ∧ (tree_on_error (deliver_failures wInit 0 9 3) (some 0) 9).world.br.errors 1
        = (deliver_failures wInit 0 9 3).br.errors 1
    ∧ (reset_breaker (deliver_failures wInit 0 9 3) 0 (.original 0)).callbacks 1
        = (deliver_failures wInit 0 9 3).callbacks 1 :=
  ⟨by decide,
    (distinct_commands_independent (deliver_failures wInit 0 9 3) 0 1 9
      (.original 0) (by decide)).1.1,
    (distinct_commands_independent (deliver_failures wInit 0 9 3) 0 1 9
      (.original 0) (by decide)).2.2.2.1⟩

end Cordcutter
